import Mathlib

/-!
Verification of the n8n Bambu Lab node core modules: a shallow embedding in
Lean 4 of the MQTT messaging session (`BambuLabMqttClient`), the command
builder (`BambuLabCommands`), the filament profile parser
(`FilamentProfileParser`), the filament slot matcher (`FilamentMatcher`) and
the retry helper (`RetryHelper`), together with theorems about their
specified behaviour.

Strings are modelled as Lean `String`/`List Char`; JavaScript string
primitives (`trim`, `toUpperCase`, `split`, `parseInt`, truthiness of
strings, `||` defaulting) are embedded explicitly below.  JavaScript `NaN`
results of `parseInt` are modelled as `Option Int` with `none` for `NaN`.
-/

/-! ## JavaScript string primitives -/

/-- Whitespace characters recognised by JavaScript `trim` / `\s`
(ASCII part; the sources only ever deal with ASCII text). -/
def jsWhitespaceChars : List Char := [' ', '\t', '\n', '\r', '\x0b', '\x0c']

/-- Is `c` a JavaScript whitespace character? -/
def isJsWs (c : Char) : Bool := jsWhitespaceChars.contains c

/-- JavaScript `String.prototype.trim` on a character list. -/
def jsTrimL (s : List Char) : List Char :=
  ((s.dropWhile isJsWs).reverse.dropWhile isJsWs).reverse

/-- JavaScript `String.prototype.trim` on a string. -/
def jsTrim (s : String) : String := (jsTrimL s.toList).asString

/-- JavaScript `String.prototype.toUpperCase` (ASCII). -/
def jsToUpperL (s : List Char) : List Char := s.map Char.toUpper

/-- JavaScript `String.prototype.split` with a single-character separator:
`"".split(c) = [""]`, separators delimit (possibly empty) fields. -/
def splitOnChar (sep : Char) : List Char → List (List Char)
  | [] => [[]]
  | c :: rest =>
    let r := splitOnChar sep rest
    if c = sep then [] :: r
    else
      match r with
      | h :: t => (c :: h) :: t
      | [] => [[c]]

/-- Decimal value of a non-empty run of leading digits, `none` if there is
no leading digit. -/
def leadingDigitsVal (cs : List Char) : Option Nat :=
  let ds := cs.takeWhile Char.isDigit
  if ds.isEmpty then none
  else some (ds.foldl (fun a c => a * 10 + (c.toNat - 48)) 0)

/-- JavaScript `parseInt(s, 10)`: skip leading whitespace, optional sign,
then the value of the leading digit run; `none` models `NaN`. -/
def jsParseIntL (s : List Char) : Option Int :=
  match s.dropWhile isJsWs with
  | '-' :: rest => (leadingDigitsVal rest).map (fun n => -(n : Int))
  | '+' :: rest => (leadingDigitsVal rest).map (fun n => (n : Int))
  | rest => (leadingDigitsVal rest).map (fun n => (n : Int))

/-- JavaScript `parseInt(s, 10)` on a string. -/
def jsParseInt (s : String) : Option Int := jsParseIntL s.toList

/-- JavaScript `x || d` for an optional string `x` (both `undefined` and
the empty string are falsy). -/
def jsOrStr (x : Option String) (d : String) : String :=
  match x with
  | none => d
  | some s => if s.isEmpty then d else s

/-- JavaScript truthiness of an optional string (`undefined` and `""` are
falsy). -/
def jsTruthyStr (x : Option String) : Bool :=
  match x with
  | none => false
  | some s => !s.isEmpty

/-- Render a JavaScript number that may be `NaN` (template-literal
interpolation). -/
def jsNumToString (n : Option Int) : String :=
  match n with
  | none => "NaN"
  | some i => toString i

/-! ## Constants (`helpers/constants.ts`) -/

/-- `LIMITS.MAX_MESSAGE_BUFFER`. -/
def MAX_MESSAGE_BUFFER : Nat := 100

/-- `TIMEOUTS.MQTT_RESPONSE` (ms). -/
def MQTT_RESPONSE_TIMEOUT : Nat := 30000

/-- `RETRY_CONFIG.MAX_RETRIES`. -/
def RETRY_MAX_RETRIES : Nat := 3

/-- `RETRY_CONFIG.INITIAL_DELAY` (ms). -/
def RETRY_INITIAL_DELAY : Nat := 1000

/-- `RETRY_CONFIG.MAX_DELAY` (ms). -/
def RETRY_MAX_DELAY : Nat := 10000

/-- `RETRY_CONFIG.BACKOFF_MULTIPLIER`. -/
def RETRY_BACKOFF_MULTIPLIER : Nat := 2

/-! ## Inbound MQTT messages and the ring buffer (`part_003`) -/

/-- One top-level variant object of an inbound message, as far as
correlation matching reads it: its optional `sequence_id`. -/
structure SeqField where
  sequence_id : Option String := none
deriving DecidableEq, Repr

/-- An inbound `MQTTMessage`: the four top-level variant keys whose
`sequence_id` the session inspects, plus the remaining (opaque) top-level
key/value data distinguishing otherwise identical messages. -/
structure MQTTMessage where
  print : Option SeqField := none
  pushing : Option SeqField := none
  system : Option SeqField := none
  gcode_line : Option SeqField := none
  rest : List (String × String) := []
deriving DecidableEq, Repr

/-- The message handler's buffer insertion (`connectOnce`, lines 113-117):
when the buffer has reached `LIMITS.MAX_MESSAGE_BUFFER` entries the oldest
is shifted off before the new message is pushed. -/
def insertMessage (buffer : List MQTTMessage) (m : MQTTMessage) : List MQTTMessage :=
  let b := if buffer.length ≥ MAX_MESSAGE_BUFFER then buffer.drop 1 else buffer
  b ++ [m]

/-! ## Command builder (`BambuLabCommands`, `BambuLab.node.ts` 712-981)

The builder owns a monotonically increasing `sequenceId` counter; each
builder method is embedded as a function from the current counter value to
the built command paired with the next counter value. -/

/-- Payload of a `print` command. -/
structure PrintParams where
  sequence_id : String
  command : String
  param : Option String := none
  project_id : Option String := none
  profile_id : Option String := none
  task_id : Option String := none
  subtask_id : Option String := none
  url : Option String := none
  file : Option String := none
  subtask_name : Option String := none
  bed_type : Option String := none
  bed_leveling : Option Bool := none
  flow_cali : Option Bool := none
  vibration_cali : Option Bool := none
  layer_inspect : Option Bool := none
  timelapse : Option Bool := none
  use_ams : Option Bool := none
  ams_mapping : Option (List Int) := none
deriving DecidableEq, Repr

/-- Payload of a `system` command. -/
structure SystemParams where
  sequence_id : String
  command : String
  param : Option String := none
  led_node : Option String := none
  led_mode : Option String := none
  led_on_time : Option Int := none
  led_off_time : Option Int := none
deriving DecidableEq, Repr

/-- Payload of a `pushing` command. -/
structure PushingParams where
  sequence_id : String
  command : String
  push_target : Option Int := none
deriving DecidableEq, Repr

/-- Payload of a `gcode_line` command. -/
structure GcodeParams where
  sequence_id : String
  command : String
  param : Option String := none
deriving DecidableEq, Repr

/-- `AnyCommand`: the tagged union of outbound command shapes.  The
`system` key is declared optional in `types.ts` (`system?:`), which the
`system` constructor's `Option` payload reflects. -/
inductive AnyCommand where
  | print (p : PrintParams)
  | system (s : Option SystemParams)
  | pushing (p : PushingParams)
  | gcode_line (g : GcodeParams)
deriving DecidableEq, Repr

/-- Options accepted by `startPrint` (`PrintCommandOptions`). -/
structure PrintCommandOptions where
  bedLeveling : Option Bool := none
  flowCalibration : Option Bool := none
  vibrationCalibration : Option Bool := none
  layerInspect : Option Bool := none
  timelapse : Option Bool := none
  useAMS : Option Bool := none
  amsMapping : Option (List Int) := none
deriving DecidableEq, Repr

/-- `startPrint(fileName, options)`. -/
def startPrint (fileName : String) (options : PrintCommandOptions) (seq : Nat) :
    AnyCommand × Nat :=
  let fileUrl := if fileName.startsWith "file:///" then fileName
    else "file:///sdcard/" ++ fileName
  let parts := (splitOnChar '/' fileName.toList).map List.asString
  let popped := (parts.getLast?).getD ""
  let displayName := if popped.isEmpty then fileName else popped
  (.print {
    sequence_id := toString seq
    command := "project_file"
    param := some "Metadata/plate_1.gcode"
    project_id := some ""
    profile_id := some ""
    task_id := some ""
    subtask_id := some ""
    url := some fileUrl
    file := some ""
    subtask_name := some displayName
    bed_type := some "auto"
    bed_leveling := some (options.bedLeveling.getD true)
    flow_cali := some (options.flowCalibration.getD false)
    vibration_cali := some (options.vibrationCalibration.getD true)
    layer_inspect := some (options.layerInspect.getD false)
    timelapse := some (options.timelapse.getD false)
    use_ams := some (options.useAMS.getD true)
    ams_mapping := some (options.amsMapping.getD [0]) }, seq + 1)

/-- `pausePrint()`. -/
def pausePrint (seq : Nat) : AnyCommand × Nat :=
  (.print { sequence_id := toString seq, command := "pause" }, seq + 1)

/-- `resumePrint()`. -/
def resumePrint (seq : Nat) : AnyCommand × Nat :=
  (.print { sequence_id := toString seq, command := "resume" }, seq + 1)

/-- `stopPrint()`. -/
def stopPrint (seq : Nat) : AnyCommand × Nat :=
  (.print { sequence_id := toString seq, command := "stop" }, seq + 1)

/-- `getPushAll()`. -/
def getPushAll (seq : Nat) : AnyCommand × Nat :=
  (.pushing { sequence_id := toString seq, command := "pushall", push_target := some 1 },
    seq + 1)

/-- `startPushing()`. -/
def startPushing (seq : Nat) : AnyCommand × Nat :=
  (.pushing { sequence_id := toString seq, command := "start" }, seq + 1)

/-- `stopPushing()`. -/
def stopPushing (seq : Nat) : AnyCommand × Nat :=
  (.pushing { sequence_id := toString seq, command := "stop" }, seq + 1)

/-- `setLED(node, mode, onTime = 500, offTime = 500)`. -/
def setLED (node mode : String) (onTime offTime : Int) (seq : Nat) : AnyCommand × Nat :=
  (.system (some {
    sequence_id := toString seq
    command := "ledctrl"
    led_node := some node
    led_mode := some mode
    led_on_time := some onTime
    led_off_time := some offTime }), seq + 1)

/-- `sendGcode(gcode, param)`. -/
def sendGcode (gcode : String) (param : Option String) (seq : Nat) : AnyCommand × Nat :=
  (.gcode_line { sequence_id := toString seq, command := gcode,
                 param := some (param.getD "") }, seq + 1)

/-- `homeAxes()`. -/
def homeAxes (seq : Nat) : AnyCommand × Nat := sendGcode "G28" none seq

/-- `setSpeed(speed)`: clamps the percentage to `[50, 166]`. -/
def setSpeed (speed : Int) (seq : Nat) : AnyCommand × Nat :=
  let clampedSpeed := max 50 (min 166 speed)
  (.system (some { sequence_id := toString seq, command := "print_speed",
                   param := some (toString clampedSpeed) }), seq + 1)

/-- `emergencyStop()`. -/
def emergencyStop (seq : Nat) : AnyCommand × Nat := sendGcode "M112" none seq

/-! ## Messaging session (`BambuLabMqttClient`, `part_003`) -/

/-- `CommandResponse` as returned by `publishCommand`. -/
structure CommandResponse where
  success : Bool
  message : String
  data : Option MQTTMessage := none
  sequence_id : Option String := none
deriving DecidableEq, Repr

/-- `ERROR_TEMPLATES.COMMAND_RESPONSE_TIMEOUT`. -/
def COMMAND_RESPONSE_TIMEOUT (timeout : Nat) : String :=
  s!"Command response timeout after {timeout}ms"

/-- `ERROR_TEMPLATES.MQTT_NOT_CONNECTED`. -/
def MQTT_NOT_CONNECTED : String := "MQTT client is not connected"

/-- The `sequence_id` extraction in `publishCommand` (`part_003` 162-172):
look up the identifier under the command's top-level variant key; a
`system` command with an absent `system` object yields `undefined`. -/
def extractSeqId : AnyCommand → Option String
  | .print p => some p.sequence_id
  | .pushing p => some p.sequence_id
  | .system (some s) => some s.sequence_id
  | .system none => none
  | .gcode_line g => some g.sequence_id

/-- `msg.print?.sequence_id === id` for one variant object. -/
def seqFieldMatches (id : String) (o : Option SeqField) : Bool :=
  match o with
  | some s => s.sequence_id == some id
  | none => false

/-- Does the inbound message embed `id` under any of the four variant keys
the poll loop inspects? -/
def messageMatchesSeq (id : String) (m : MQTTMessage) : Bool :=
  seqFieldMatches id m.print || seqFieldMatches id m.pushing ||
    seqFieldMatches id m.system || seqFieldMatches id m.gcode_line

/-- `messageBuffer.find(...)` of the poll loop (`part_003` 207-215). -/
def findSeqResponse (id : String) (buffer : List MQTTMessage) : Option MQTTMessage :=
  buffer.find? (messageMatchesSeq id)

/-- One execution of the poll-interval body (`part_003` 202-233) against a
buffer snapshot: `none` when the buffer is empty (keep polling), otherwise
the identifier-matched message if the command carried a truthy identifier
and a match exists, else the most recently received message. -/
def selectResponse (commandSeqId : Option String) (buffer : List MQTTMessage) :
    Option MQTTMessage :=
  if buffer.isEmpty then none
  else
    let byId := if jsTruthyStr commandSeqId then
        findSeqResponse (commandSeqId.getD "") buffer
      else none
    match byId with
    | some r => some r
    | none => buffer.getLast?

/-- The bounded poll loop of `publishCommand` with `waitForResponse=true`:
`snapshots` are the buffer contents observed at the successive poll ticks
inside the response-timeout window (the buffer was cleared before
publishing, so the snapshots start from the post-clear state).  Exhausting
the window without any message having arrived fails with the
command-response timeout. -/
def pollForResponse (commandSeqId : Option String) :
    List (List MQTTMessage) → Except String MQTTMessage
  | [] => .error (COMMAND_RESPONSE_TIMEOUT MQTT_RESPONSE_TIMEOUT)
  | b :: rest =>
    match selectResponse commandSeqId b with
    | some r => .ok r
    | none => pollForResponse commandSeqId rest

/-- `publishCommand(command, waitForResponse)` (`part_003` 150-236):
requires a connected client; with `waitForResponse=false` it returns the
synthetic acknowledgment immediately; with `waitForResponse=true` it
clears the buffer, publishes, and resolves from the poll loop over the
buffer snapshots at the poll ticks. -/
def publishCommand (connected : Bool) (command : AnyCommand)
    (waitForResponse : Bool) (snapshots : List (List MQTTMessage)) :
    Except String CommandResponse :=
  if !connected then .error MQTT_NOT_CONNECTED
  else
    let commandSeqId := extractSeqId command
    if !waitForResponse then
      .ok { success := true, message := "Command sent successfully",
            sequence_id := commandSeqId }
    else
      match pollForResponse commandSeqId snapshots with
      | .error e => .error e
      | .ok r =>
        .ok { success := true, message := "Command executed and response received",
              data := some r }


/-- An unrelated inbound message carrying no correlation identifier. -/
def cexOtherMsg : MQTTMessage := { rest := [("wifi_signal", "-44dBm")] }

/-- An inbound response bearing correlation identifier "5" under the
`print` variant key. -/
def cexMatchMsg : MQTTMessage := { print := some { sequence_id := some "5" } }

/-! ## Filament matcher (`helpers/FilamentMatcher.ts`)

`parseInt` results are `Option Int` (`none` = JavaScript `NaN`), so the
`matchedTrayId`/`matchedSlot` fields and `mapping` entries are optional
integers; the `+ 1` that derives `matchedSlot` is lifted over the option
(`NaN + 1 = NaN`). -/

/-- A filament profile parsed from a `.3mf` file (`FilamentProfile`). -/
structure FilamentProfile where
  index : Nat
  type : String
  colour : String
  name : String
  slotNumber : Nat
  trayId : Nat
deriving DecidableEq, Repr

/-- One AMS tray as reported by the device (the fields the matcher reads). -/
structure AMSTray where
  id : Option String := none
  tray_type : Option String := none
  tray_color : Option String := none
deriving DecidableEq, Repr

/-- One AMS unit (`print.ams.ams[]` element): its optional tray list. -/
structure AMSUnit where
  tray : Option (List AMSTray) := none
deriving DecidableEq, Repr

/-- The `print.ams` object: its optional `ams` unit array. -/
structure AMSData where
  ams : Option (List AMSUnit) := none
deriving DecidableEq, Repr

/-- The `print` object of a status message, as far as the matcher reads it. -/
structure PrintData where
  ams : Option AMSData := none
deriving DecidableEq, Repr

/-- `PrinterStatus` as consumed by `matchProfilesToAMS` (AMS data is always
nested under `print.ams`). -/
structure PrinterStatus where
  print : Option PrintData := none
deriving DecidableEq, Repr

/-- Strip a single leading `#` (the `replace(/^#/, '')` step). -/
def stripLeadingHash (s : List Char) : List Char :=
  match s with
  | [] => []
  | c :: rest => if c = '#' then rest else c :: rest

/-- The hexadecimal digit characters. -/
def hexDigitChars : List Char := "0123456789abcdefABCDEF".toList

/-- Is `c` a hexadecimal digit? -/
def isHexDigitC (c : Char) : Bool := hexDigitChars.contains c

/-- A hex color string form: an optional single leading `#` followed by
hexadecimal digits only (covers 6-character, 8-character-with-alpha,
lowercase, and `#`-prefixed color strings). -/
def hexColorForm (s : String) : Bool := (stripLeadingHash s.toList).all isHexDigitC

/-- `FilamentMatcher.normalizeColor` on a character list: trim, uppercase,
strip one leading `#`, strip all whitespace, and truncate to the first 6
characters when at least 8 remain (alpha channel present). -/
def normColorL (color : List Char) : List Char :=
  let n := (stripLeadingHash (jsToUpperL (jsTrimL color))).filter (fun c => !isJsWs c)
  if 8 ≤ n.length then n.take 6 else n

/-- `FilamentMatcher.normalizeColor`. -/
def normalizeColor (color : String) : String := (normColorL color.toList).asString

/-- `FilamentMatcher.normalizeType`: trim and uppercase. -/
def normalizeType (t : String) : String := (jsToUpperL (jsTrimL t.toList)).asString

/-- `MatchedFilamentProfile`: the matched profile (spread fields) plus the
match data. -/
structure MatchedFilamentProfile where
  profile : FilamentProfile
  matchedSlot : Option Int
  matchedTrayId : Option Int
  matchQuality : String
  currentColor : String
  currentType : String
deriving DecidableEq, Repr

/-- `FilamentMatchResult`. -/
structure FilamentMatchResult where
  mapping : List (Option Int)
  «matches» : List MatchedFilamentProfile
  amsDetected : Bool
  totalSlots : Nat
deriving DecidableEq, Repr

/-- `FilamentMatcher.findExactMatch`: first tray whose normalized type and
color both equal the profile's normalized type and color. -/
def findExactMatch (profile : FilamentProfile) (trays : List AMSTray) :
    Option MatchedFilamentProfile :=
  let normalizedProfileColor := normalizeColor profile.colour
  let normalizedProfileType := normalizeType profile.type
  match trays.find? (fun t =>
      normalizeType (jsOrStr t.tray_type "") == normalizedProfileType &&
      normalizeColor (jsOrStr t.tray_color "") == normalizedProfileColor) with
  | none => none
  | some tray =>
    let trayId := jsParseInt (jsOrStr tray.id "0")
    some { profile := profile
           matchedSlot := trayId.map (· + 1)
           matchedTrayId := trayId
           matchQuality := "exact"
           currentColor := jsOrStr tray.tray_color ""
           currentType := jsOrStr tray.tray_type "" }

/-- One entry of `formatAvailableFilaments`. -/
def formatTrayListing (t : AMSTray) : String :=
  let slot := jsNumToString ((jsParseInt (jsOrStr t.id "0")).map (· + 1))
  let ty := jsOrStr t.tray_type "Unknown"
  let col := jsOrStr t.tray_color "Unknown"
  s!"Slot {slot}: {ty} ({col})"

/-- `FilamentMatcher.formatAvailableFilaments`. -/
def formatAvailableFilaments (trays : List AMSTray) : String :=
  if trays.isEmpty then "No filaments loaded"
  else String.intercalate ", " (trays.map formatTrayListing)

/-- The `FilamentNotFound` error message thrown by `matchProfilesToAMS`. -/
def FILAMENT_NOT_FOUND_MSG (ty color : String) (index : Nat) (available : String) : String :=
  s!"Filament not found in AMS: Need {ty} ({color}) for profile {index}. Available: {available}"

/-- The profile loop of `matchProfilesToAMS` (lines 79-96): match each
profile in input order against the tray list, failing at the first
unmatched profile. -/
def matchTrays (trays : List AMSTray) :
    List FilamentProfile → Except String (List (Option Int) × List MatchedFilamentProfile)
  | [] => .ok ([], [])
  | profile :: rest =>
    match findExactMatch profile trays with
    | none =>
      .error (FILAMENT_NOT_FOUND_MSG profile.type profile.colour profile.index
        (formatAvailableFilaments trays))
    | some m =>
      match matchTrays trays rest with
      | .error e => .error e
      | .ok (mp, ms) => .ok (m.matchedTrayId :: mp, m :: ms)

/-- The single-spool ("no AMS detected") result (lines 42-54 and 63-75). -/
def noAMSResult (profiles : List FilamentProfile) : FilamentMatchResult :=
  { mapping := profiles.map (fun _ => some 0)
    «matches» := profiles.map (fun p =>
      { profile := p, matchedSlot := some 1, matchedTrayId := some 0,
        matchQuality := "exact", currentColor := p.colour, currentType := p.type })
    amsDetected := false
    totalSlots := 1 }

/-- All trays of all reported AMS units of a status, in reported order
(the `flatMap` of line 59); empty when `print.ams` or `print.ams.ams` is
missing. -/
def statusTrays (currentStatus : PrinterStatus) : List AMSTray :=
  match currentStatus.print.bind (fun p => p.ams) with
  | none => []
  | some amsData =>
    match amsData.ams with
    | none => []
    | some units => (units.map (fun u => u.tray.getD [])).flatten

/-- `FilamentMatcher.matchProfilesToAMS`. -/
def matchProfilesToAMS (profiles : List FilamentProfile)
    (currentStatus : PrinterStatus) : Except String FilamentMatchResult :=
  match currentStatus.print.bind (fun p => p.ams) with
  | none => .ok (noAMSResult profiles)
  | some amsData =>
    match amsData.ams with
    | none => .ok (noAMSResult profiles)
    | some units =>
      if units.isEmpty then .ok (noAMSResult profiles)
      else
        let allTrays := (units.map (fun u => u.tray.getD [])).flatten
        if allTrays.isEmpty then .ok (noAMSResult profiles)
        else
          match matchTrays allTrays profiles with
          | .error e => .error e
          | .ok (mapping, ms) =>
            .ok { mapping := mapping, «matches» := ms, amsDetected := true,
                  totalSlots := allTrays.length }

/-- A red-PLA profile used to instantiate the matcher theorems. -/
def witProfilePLA : FilamentProfile :=
  { index := 0, type := "PLA", colour := "FF0000", name := "Red PLA",
    slotNumber := 1, trayId := 0 }

/-- A status reporting no material bay at all. -/
def witStatusNoAMS : PrinterStatus := {}

/-- A device-reported tray: id "2", PLA, 8-hex color with alpha. -/
def witTrayPLA : AMSTray :=
  { id := some "2", tray_type := some "PLA", tray_color := some "#ff0000ff" }

/-- A status reporting one AMS unit holding `witTrayPLA`. -/
def witStatusAMS : PrinterStatus :=
  { print := some { ams := some { ams := some [{ tray := some [witTrayPLA] }] } } }


/-! ## Retry helper (`RetryHelper`, in `helpers/PathValidator.ts`)

The wrapped async operation is embedded as `fn : Nat → Except String α`,
where `fn i` is the outcome of its `(i+1)`-th invocation; the wrapper
returns the final outcome together with the total number of invocations
made and the list of back-off delays slept, so that the bounded-retry and
backoff behaviour is observable. -/

/-- The `retryablePatterns` of `RetryHelper.isRetryableError`, each a
case-insensitive regex on the error message. -/
def retryablePatterns : List String :=
  ["ECONNREFUSED", "ECONNRESET", "ETIMEDOUT", "ENOTFOUND",
   "timeout", "network", "connection"]

/-- Does `hay` contain `pat` as a contiguous substring? -/
def listHasSubstr (hay pat : List Char) : Bool :=
  pat.isPrefixOf hay ||
    match hay with
    | [] => false
    | _ :: t => listHasSubstr t pat

/-- Case-insensitive substring test (a `/pattern/i` regex with a literal
pattern). -/
def containsCaseInsensitive (hay pat : String) : Bool :=
  listHasSubstr (hay.toList.map Char.toLower) (pat.toList.map Char.toLower)

/-- `RetryHelper.isRetryableError`. -/
def isRetryableError (msg : String) : Bool :=
  retryablePatterns.any (fun p => containsCaseInsensitive msg p)

/-- The delay before retry number `attempt` (1-based):
`min(initialDelay * backoffMultiplier ^ (attempt - 1), maxDelay)`. -/
def retryDelay (initialDelay backoffMultiplier maxDelay attempt : Nat) : Nat :=
  min (initialDelay * backoffMultiplier ^ (attempt - 1)) maxDelay

/-- The `while` loop of `RetryHelper.withConditionalRetry`: on a
non-retryable error throw immediately; on a retryable error rethrow when
no retries remain, otherwise sleep the back-off delay and try again. -/
def condRetryGo {α : Type} (fn : Nat → Except String α) (i remaining : Nat) :
    Except String α × Nat × List Nat :=
  match fn i with
  | .ok a => (.ok a, 1, [])
  | .error e =>
    if isRetryableError e then
      match remaining with
      | 0 => (.error e, 1, [])
      | r + 1 =>
        let d := retryDelay RETRY_INITIAL_DELAY RETRY_BACKOFF_MULTIPLIER
          RETRY_MAX_DELAY (i + 1)
        let rec2 := condRetryGo fn (i + 1) r
        (rec2.1, rec2.2.1 + 1, d :: rec2.2.2)
    else (.error e, 1, [])

/-- `RetryHelper.withConditionalRetry` with the default retry
configuration and a given `maxRetries`. -/
def withConditionalRetry {α : Type} (fn : Nat → Except String α) (maxRetries : Nat) :
    Except String α × Nat × List Nat :=
  condRetryGo fn 0 maxRetries

/-- A terminal authentication failure (never retryable). -/
def witAuthErrFn : Nat → Except String Unit :=
  fun _ => .error "FTP authentication failed. Please verify your access code in the credentials."

/-- A transient connection failure (retryable). -/
def witConnErrFn : Nat → Except String Unit :=
  fun _ => .error "Connection timeout"


/-! ## Filament profile parser (`FilamentProfileParser`, `part_000`)

The archive/entry handling of `parseFromBuffer` (ZIP decoding) is outside
the scope of the claims; the embedding covers `parseGcodeHeader` and
`parseSlotUsage` over the decoded gcode text.  Header lines are
represented as character lists. -/

/-- The error message of `parseSlotUsage` for an invalid slot value. -/
def INVALID_SLOT_MSG (s : String) : String :=
  s!"Invalid AMS slot number: \"{s}\". Must be 1-4 for A1 series."

/-- The error message when slot parsing yields no slots. -/
def NO_VALID_SLOTS_MSG : String :=
  "No valid slot numbers found in \"; filament:\" line."

/-- The error message for an absent `"; filament:"` directive. -/
def MISSING_FILAMENT_LINE_MSG : String :=
  "Failed to parse gcode: \"; filament:\" line not found in header. This may not be a valid Bambu Studio sliced file."

/-- The error message for an absent `"; filament_type ="` directive. -/
def MISSING_TYPE_LINE_MSG : String :=
  "Failed to parse gcode: \"; filament_type =\" line not found in header."

/-- The error message for a used slot beyond the embedded profile lists. -/
def INVALID_PROFILE_INDEX_MSG (profileIndex slotNumber numEmbedded : Nat) : String :=
  s!"Invalid profile index {profileIndex} for slot {slotNumber}. Only {numEmbedded} profiles embedded in file."

/-- The comma-split, trimmed, non-empty tokens of a `"; filament:"`
value (`split(',').map(trim).filter(nonempty)`). -/
def slotTokens (value : String) : List String :=
  (((splitOnChar ',' value.toList).map (fun t => (jsTrimL t).asString)).filter
    (fun s => !(s == "")))

/-- Is the token rejected by `parseSlotUsage`: `parseInt` yields `NaN` or
a value outside `[1, 4]`? -/
def badSlotTok (s : String) : Bool :=
  match jsParseInt s with
  | none => true
  | some n => n < 1 || 4 < n

/-- The `map` body of `parseSlotUsage` over the token list: the first
token whose `parseInt` is `NaN` or out of `[1, 4]` throws. -/
def parseSlotTokens : List String → Except String (List Nat)
  | [] => .ok []
  | s :: rest =>
    match jsParseInt s with
    | none => .error (INVALID_SLOT_MSG s)
    | some n =>
      if n < 1 || 4 < n then .error (INVALID_SLOT_MSG s)
      else
        match parseSlotTokens rest with
        | .error e => .error e
        | .ok ns => .ok (n.toNat :: ns)

/-- `FilamentProfileParser.parseSlotUsage`. -/
def parseSlotUsage (value : String) : Except String (List Nat) :=
  match parseSlotTokens (slotTokens value) with
  | .error e => .error e
  | .ok slots => if slots.isEmpty then .error NO_VALID_SLOTS_MSG else .ok slots

/-- The four directive accumulators of `parseGcodeHeader`. -/
structure GcodeDirectives where
  slotsUsed : List Nat := []
  filamentTypes : List String := []
  filamentColours : List String := []
  filamentNames : List String := []
deriving DecidableEq, Repr

/-- The accumulators before any line is scanned. -/
def initialDirectives : GcodeDirectives := {}

/-- `value.split(';').map(s => s.trim())`. -/
def semiSplitTrim (value : List Char) : List String :=
  (splitOnChar ';' value).map (fun t => (jsTrimL t).asString)

/-- Remove one leading and one trailing double quote
(`replace(/^"|"$/g, '')`). -/
def stripQuotes (s : List Char) : List Char :=
  let s1 := match s with
    | '"' :: t => t
    | t => t
  match s1.reverse with
  | '"' :: t => t.reverse
  | _ => s1

/-- `value.split(';').map(s => s.trim().replace(/^"|"$/g, ''))`. -/
def semiSplitTrimUnquote (value : List Char) : List String :=
  (splitOnChar ';' value).map (fun t => (stripQuotes (jsTrimL t)).asString)

/-- The directive scan of `parseGcodeHeader` (lines 71-100): comment
lines are recognised by a leading `;`, the four directives by their
prefixes on the trimmed comment; later occurrences overwrite earlier
ones, and an invalid `"; filament:"` value aborts the scan. -/
def scanHeaderLines : List (List Char) → GcodeDirectives → Except String GcodeDirectives
  | [], acc => .ok acc
  | line :: rest, acc =>
    match line with
    | ';' :: lrest =>
      let comment := jsTrimL lrest
      if List.isPrefixOf "filament:".toList comment then
        match parseSlotUsage ((jsTrimL (comment.drop 9)).asString) with
        | .error e => .error e
        | .ok slots => scanHeaderLines rest { acc with slotsUsed := slots }
      else if List.isPrefixOf "filament_type =".toList comment then
        scanHeaderLines rest
          { acc with filamentTypes := semiSplitTrim (jsTrimL (comment.drop 15)) }
      else if List.isPrefixOf "filament_colour =".toList comment then
        scanHeaderLines rest
          { acc with filamentColours := semiSplitTrim (jsTrimL (comment.drop 17)) }
      else if List.isPrefixOf "filament_settings_id =".toList comment then
        scanHeaderLines rest
          { acc with filamentNames := semiSplitTrimUnquote (jsTrimL (comment.drop 22)) }
      else scanHeaderLines rest acc
    | _ => scanHeaderLines rest acc

/-- The first 500 lines of the gcode content
(`split('\n').slice(0, 500)`). -/
def gcodeLines (gcodeContent : String) : List (List Char) :=
  (splitOnChar '\n' gcodeContent.toList).take 500

/-- JavaScript `xs[i] || d` over a string array: out-of-bounds and empty
entries both fall back to the default. -/
def jsIndexOr (xs : List String) (i : Nat) (d : String) : String :=
  match xs[i]? with
  | none => d
  | some s => if s.isEmpty then d else s

/-- `ParsedFilamentData`. -/
structure ParsedFilamentData where
  profiles : List FilamentProfile
  detectedMapping : List Nat
  totalEmbedded : Nat
deriving DecidableEq, Repr

/-- The per-used-slot profile-building loop of `parseGcodeHeader`
(lines 119-140): each declared slot indexes the per-material lists at
`slotNumber - 1`; an index beyond the embedded type list is fatal. -/
def buildProfiles (d : GcodeDirectives) :
    List Nat → Except String (List FilamentProfile × List Nat)
  | [] => .ok ([], [])
  | slotNumber :: rest =>
    let profileIndex := slotNumber - 1
    if d.filamentTypes.length ≤ profileIndex then
      .error (INVALID_PROFILE_INDEX_MSG profileIndex slotNumber d.filamentTypes.length)
    else
      let p : FilamentProfile :=
        { index := profileIndex
          type := jsIndexOr d.filamentTypes profileIndex "UNKNOWN"
          colour := jsIndexOr d.filamentColours profileIndex "#FFFFFF"
          name := jsIndexOr d.filamentNames profileIndex "Unknown Profile"
          slotNumber := slotNumber
          trayId := slotNumber - 1 }
      match buildProfiles d rest with
      | .error e => .error e
      | .ok (ps, mp) => .ok (p :: ps, (slotNumber - 1) :: mp)

/-- `FilamentProfileParser.parseGcodeHeader`. -/
def parseGcodeHeader (gcodeContent : String) : Except String ParsedFilamentData :=
  match scanHeaderLines (gcodeLines gcodeContent) initialDirectives with
  | .error e => .error e
  | .ok d =>
    if d.slotsUsed.isEmpty then .error MISSING_FILAMENT_LINE_MSG
    else if d.filamentTypes.isEmpty then .error MISSING_TYPE_LINE_MSG
    else
      match buildProfiles d d.slotsUsed with
      | .error e => .error e
      | .ok (profiles, detectedMapping) =>
        .ok { profiles := profiles, detectedMapping := detectedMapping,
              totalEmbedded := d.filamentTypes.length }

/-- A sliced-file header using slots 1 and 2 over 5 embedded materials. -/
def witGcodeContent : String :=
  "; filament: 1,2\n; filament_type = PETG;PETG;PLA;PLA;TPU\n; filament_colour = #515151;#000000;#68724D;#042F56;#2850E0"

/-- The directives scanned from `witGcodeContent`. -/
def witGcodeDirectives : GcodeDirectives :=
  { slotsUsed := [1, 2]
    filamentTypes := ["PETG", "PETG", "PLA", "PLA", "TPU"]
    filamentColours := ["#515151", "#000000", "#68724D", "#042F56", "#2850E0"]
    filamentNames := [] }

/-- A header whose slot-usage value "2.5" is not an integer. -/
def cexGcodeContent : String :=
  "; filament: 2.5\n; filament_type = PETG;PETG;PLA;PLA;TPU"

/-- A header declaring slot 4 over only 2 embedded materials. -/
def witGcodeBadIndex : String := "; filament: 4\n; filament_type = PLA;PLA"

/-- The directives scanned from `witGcodeBadIndex`. -/
def witBadIndexDirectives : GcodeDirectives :=
  { slotsUsed := [4], filamentTypes := ["PLA", "PLA"] }


/-! ## Theorems -/

theorem insertMessage_length_le (buffer : List MQTTMessage) (m : MQTTMessage)
    (h : buffer.length ≤ MAX_MESSAGE_BUFFER) :
    (insertMessage buffer m).length ≤ MAX_MESSAGE_BUFFER := by
  have hM : MAX_MESSAGE_BUFFER = 100 := rfl
  unfold insertMessage
  by_cases hb : MAX_MESSAGE_BUFFER ≤ buffer.length
  · rw [if_pos hb, List.length_append, List.length_drop]
    simp only [List.length_cons, List.length_nil]
    omega
  · rw [if_neg hb, List.length_append]
    simp only [List.length_cons, List.length_nil]
    omega

theorem foldl_insertMessage_eq (msgs : List MQTTMessage) :
    ∀ init : List MQTTMessage, init.length ≤ MAX_MESSAGE_BUFFER →
      msgs.foldl insertMessage init =
        (init ++ msgs).drop (init.length + msgs.length - MAX_MESSAGE_BUFFER) := by
  have hM : MAX_MESSAGE_BUFFER = 100 := rfl
  induction msgs with
  | nil =>
    intro init h
    have h0 : init.length + List.length ([] : List MQTTMessage) - MAX_MESSAGE_BUFFER = 0 := by
      simp only [List.length_nil]
      omega
    rw [List.foldl_nil, List.append_nil, h0, List.drop_zero]
  | cons m ms ih =>
    intro init h
    rw [List.foldl_cons]
    by_cases hfull : MAX_MESSAGE_BUFFER ≤ init.length
    · have hlen : init.length = MAX_MESSAGE_BUFFER := le_antisymm h hfull
      have hins : insertMessage init m = init.drop 1 ++ [m] := by
        unfold insertMessage
        rw [if_pos hfull]
      have hlen2 : (init.drop 1 ++ [m]).length ≤ MAX_MESSAGE_BUFFER := by
        rw [List.length_append, List.length_drop]
        simp only [List.length_cons, List.length_nil]
        omega
      rw [hins, ih _ hlen2]
      cases init with
      | nil =>
        rw [hM] at hlen
        simp at hlen
      | cons a t =>
        have ht : t.length + 1 = MAX_MESSAGE_BUFFER := by
          simpa using hlen
        have hidx1 : ((a :: t).drop 1 ++ [m]).length + ms.length - MAX_MESSAGE_BUFFER
            = ms.length := by
          rw [List.drop_one, List.tail_cons, List.length_append]
          simp only [List.length_cons, List.length_nil]
          omega
        have hidx2 : (a :: t).length + (m :: ms).length - MAX_MESSAGE_BUFFER
            = ms.length + 1 := by
          simp only [List.length_cons]
          omega
        rw [hidx1, hidx2, List.drop_one, List.tail_cons, List.cons_append,
          List.drop_succ_cons, List.append_assoc, List.singleton_append]
    · have hins : insertMessage init m = init ++ [m] := by
        unfold insertMessage
        rw [if_neg hfull]
      have hlen2 : (init ++ [m]).length ≤ MAX_MESSAGE_BUFFER := by
        rw [List.length_append]
        simp only [List.length_cons, List.length_nil]
        omega
      rw [hins, ih _ hlen2, List.append_assoc, List.singleton_append]
      congr 1
      rw [List.length_append]
      simp only [List.length_cons, List.length_nil]
      omega

/-- Claim C2: the inbound telemetry message buffer never exceeds its fixed
capacity of 100 entries: for every sequence of inbound messages, folding
the handler's insertion over the empty buffer leaves exactly the most
recent `min(length, 100)` messages in arrival order (the oldest entry is
evicted first when inserting under a full buffer). -/
theorem messageBuffer_ring (msgs : List MQTTMessage) :
    msgs.foldl insertMessage [] = msgs.drop (msgs.length - MAX_MESSAGE_BUFFER) ∧
    (msgs.foldl insertMessage []).length = min msgs.length MAX_MESSAGE_BUFFER := by
  have hM : MAX_MESSAGE_BUFFER = 100 := rfl
  have h := foldl_insertMessage_eq msgs [] (by simp [hM])
  simp only [List.nil_append, List.length_nil, Nat.zero_add] at h
  refine ⟨h, ?_⟩
  rw [h, List.length_drop]
  omega

theorem pollForResponse_all_empty (id : Option String)
    (snapshots : List (List MQTTMessage)) (h : ∀ s ∈ snapshots, s = []) :
    pollForResponse id snapshots = .error (COMMAND_RESPONSE_TIMEOUT MQTT_RESPONSE_TIMEOUT) := by
  induction snapshots with
  | nil => rfl
  | cons b rest ih =>
    have hb : b = [] := h b (by simp)
    subst hb
    have hsel : selectResponse id ([] : List MQTTMessage) = none := by
      simp [selectResponse]
    unfold pollForResponse
    rw [hsel]
    exact ih (fun s hs => h s (by simp [hs]))

theorem pollForResponse_first_nonempty (id : Option String)
    (pre : List (List MQTTMessage)) (b : List MQTTMessage)
    (post : List (List MQTTMessage)) (r : MQTTMessage)
    (hpre : ∀ s ∈ pre, s = []) (hsel : selectResponse id b = some r) :
    pollForResponse id (pre ++ b :: post) = .ok r := by
  induction pre with
  | nil =>
    unfold pollForResponse
    rw [List.nil_append]
    simp only [hsel]
  | cons p ps ih =>
    have hp : p = [] := hpre p (by simp)
    subst hp
    have hsel0 : selectResponse id ([] : List MQTTMessage) = none := by
      simp [selectResponse]
    rw [List.cons_append]
    unfold pollForResponse
    rw [hsel0]
    exact ih (fun s hs => hpre s (by simp [hs]))

/-- Claim C1 (amended): for a command sent via `publishCommand` with
`waitForResponse=true` carrying (truthy) correlation identifier `id`, the
call resolves from the buffer contents at the first poll tick at which the
inbound buffer is nonempty: with the first message bearing `id` when one
is buffered at that tick, and otherwise with the most recently received
message at that tick — even if a message bearing `id` arrives at a later
tick within the window; it fails with the command-response timeout exactly
when no message at all arrives within the bounded window. -/
theorem publishCommand_wait_correlation (cmd : AnyCommand) (id : String)
    (snapshots pre post : List (List MQTTMessage)) (b : List MQTTMessage)
    (hid : extractSeqId cmd = some id) (hne : id ≠ "")
    (hsnap : snapshots = pre ++ b :: post) (hpre : ∀ s ∈ pre, s = []) :
    (∀ m, findSeqResponse id b = some m →
       publishCommand true cmd true snapshots =
         .ok { success := true, message := "Command executed and response received",
               data := some m }) ∧
    (∀ hb : b ≠ [], findSeqResponse id b = none →
       publishCommand true cmd true snapshots =
         .ok { success := true, message := "Command executed and response received",
               data := some (b.getLast hb) }) ∧
    ((∀ s ∈ snapshots, s = []) →
       publishCommand true cmd true snapshots =
         .error (COMMAND_RESPONSE_TIMEOUT MQTT_RESPONSE_TIMEOUT)) := by
  have hemp : id.isEmpty = false := by
    cases h : id.isEmpty with
    | false => rfl
    | true => exact absurd ((String.isEmpty_iff id).mp h) hne
  have htruthy : jsTruthyStr (some id) = true := by
    simp [jsTruthyStr, hemp]
  refine ⟨?_, ?_, ?_⟩
  · intro m hm
    have hbne : b ≠ [] := by
      intro hb
      subst hb
      simp [findSeqResponse] at hm
    have hsel : selectResponse (some id) b = some m := by
      unfold selectResponse
      rw [if_neg (by simpa [List.isEmpty_iff] using hbne), htruthy]
      simp only [if_true, Option.getD_some, hm]
    have hpoll := pollForResponse_first_nonempty (some id) pre b post m hpre hsel
    simp [publishCommand, hid, hsnap, hpoll]
  · intro hb hnone
    have hsel : selectResponse (some id) b = some (b.getLast hb) := by
      unfold selectResponse
      rw [if_neg (by simpa [List.isEmpty_iff] using hb), htruthy]
      simp only [if_true, Option.getD_some, hnone]
      exact List.getLast?_eq_getLast_of_ne_nil hb
    have hpoll := pollForResponse_first_nonempty (some id) pre b post _ hpre hsel
    simp [publishCommand, hid, hsnap, hpoll]
  · intro hempty
    have hpoll := pollForResponse_all_empty (some id) snapshots hempty
    simp [publishCommand, hid, hpoll]

/-- Claim C1 counterexample: `pausePrint` built at counter 5 carries
identifier "5"; the identifier-bearing response is in the buffer at the
second poll tick — before the response timeout — yet the call resolves at
the first nonempty tick with the unrelated buffered message, not with the
identifier-bearing one. -/
theorem publishCommand_wait_correlation_cex :
    messageMatchesSeq "5" cexMatchMsg = true ∧
    messageMatchesSeq "5" cexOtherMsg = false ∧
    cexMatchMsg ∈ [cexOtherMsg, cexMatchMsg] ∧
    extractSeqId (pausePrint 5).1 = some "5" ∧
    publishCommand true (pausePrint 5).1 true [[cexOtherMsg], [cexOtherMsg, cexMatchMsg]] =
      .ok { success := true, message := "Command executed and response received",
            data := some cexOtherMsg } ∧
    cexOtherMsg ≠ cexMatchMsg := by
  refine ⟨by decide, by decide, by simp, rfl, rfl, by decide⟩

theorem publishCommand_wait_correlation_witness :
    publishCommand true (pausePrint 5).1 true [[], [cexMatchMsg]] =
      .ok { success := true, message := "Command executed and response received",
            data := some cexMatchMsg } :=
  (publishCommand_wait_correlation (pausePrint 5).1 "5" [[], [cexMatchMsg]]
    [[]] [] [cexMatchMsg] (by decide) (by decide) rfl (by simp)).1
    cexMatchMsg (by decide)

/-- Claim C9: round-trip of the correlation identifier — for every command
built by the Command Encoder (print-control, pushed-telemetry, system, or
raw-motion variant) at counter value `n`, extracting the correlation
identifier by the command's top-level variant tag, the way `publishCommand`
does, recovers exactly the identifier assigned at encode time. -/
theorem encoder_seqid_roundtrip (fileName : String) (options : PrintCommandOptions)
    (node mode : String) (onTime offTime : Int) (gcode : String) (param : Option String)
    (speed : Int) (n : Nat) :
    extractSeqId (startPrint fileName options n).1 = some (toString n) ∧
    extractSeqId (pausePrint n).1 = some (toString n) ∧
    extractSeqId (resumePrint n).1 = some (toString n) ∧
    extractSeqId (stopPrint n).1 = some (toString n) ∧
    extractSeqId (getPushAll n).1 = some (toString n) ∧
    extractSeqId (startPushing n).1 = some (toString n) ∧
    extractSeqId (stopPushing n).1 = some (toString n) ∧
    extractSeqId (setLED node mode onTime offTime n).1 = some (toString n) ∧
    extractSeqId (sendGcode gcode param n).1 = some (toString n) ∧
    extractSeqId (homeAxes n).1 = some (toString n) ∧
    extractSeqId (setSpeed speed n).1 = some (toString n) ∧
    extractSeqId (emergencyStop n).1 = some (toString n) :=
  ⟨rfl, rfl, rfl, rfl, rfl, rfl, rfl, rfl, rfl, rfl, rfl, rfl⟩

theorem findExactMatch_shape (p : FilamentProfile) (trays : List AMSTray)
    (m : MatchedFilamentProfile) (h : findExactMatch p trays = some m) :
    m.profile = p ∧ m.matchedSlot = m.matchedTrayId.map (· + 1) ∧
    m.matchQuality = "exact" ∧
    ∃ t ∈ trays, m.matchedTrayId = jsParseInt (jsOrStr t.id "0") := by
  simp only [findExactMatch] at h
  split at h
  · exact absurd h (by simp)
  · next tray hf =>
    simp only [Option.some_inj] at h
    subst h
    have hmem := List.mem_of_find?_eq_some hf
    exact ⟨rfl, rfl, rfl, tray, hmem, rfl⟩

theorem matchTrays_ok_shape (trays : List AMSTray) (profiles : List FilamentProfile)
    (mp : List (Option Int)) (ms : List MatchedFilamentProfile)
    (h : matchTrays trays profiles = .ok (mp, ms)) :
    ms.map (fun m => m.profile) = profiles ∧
    mp = ms.map (fun m => m.matchedTrayId) ∧
    ∀ m ∈ ms, ∃ p, findExactMatch p trays = some m := by
  induction profiles generalizing mp ms with
  | nil =>
    simp only [matchTrays, Except.ok.injEq, Prod.mk.injEq] at h
    obtain ⟨h1, h2⟩ := h
    subst h1
    subst h2
    simp
  | cons p ps ih =>
    unfold matchTrays at h
    cases hf : findExactMatch p trays with
    | none =>
      rw [hf] at h
      simp at h
    | some m =>
      rw [hf] at h
      cases hr : matchTrays trays ps with
      | error e =>
        rw [hr] at h
        simp at h
      | ok pr =>
        obtain ⟨mp2, ms2⟩ := pr
        rw [hr] at h
        simp only [Except.ok.injEq, Prod.mk.injEq] at h
        obtain ⟨hmp, hms⟩ := h
        subst hmp
        subst hms
        obtain ⟨i1, i2, i3⟩ := ih mp2 ms2 hr
        have hp := (findExactMatch_shape p trays m hf).1
        refine ⟨?_, ?_, ?_⟩
        · simp [i1, hp]
        · simp [i2]
        · intro m2 hm2
          rcases List.mem_cons.mp hm2 with h2 | h2
          · subst h2
            exact ⟨p, hf⟩
          · exact i3 m2 h2

theorem matchTrays_error_shape (trays : List AMSTray) (profiles : List FilamentProfile)
    (e : String) (h : matchTrays trays profiles = .error e) :
    ∃ p ∈ profiles, findExactMatch p trays = none ∧
      e = FILAMENT_NOT_FOUND_MSG p.type p.colour p.index
        (formatAvailableFilaments trays) := by
  induction profiles with
  | nil => simp [matchTrays] at h
  | cons p ps ih =>
    unfold matchTrays at h
    cases hf : findExactMatch p trays with
    | none =>
      rw [hf] at h
      simp only [Except.error.injEq] at h
      exact ⟨p, by simp, hf, h.symm⟩
    | some m =>
      rw [hf] at h
      cases hr : matchTrays trays ps with
      | error e2 =>
        rw [hr] at h
        simp only [Except.error.injEq] at h
        subst h
        obtain ⟨q, hq, hfq, he⟩ := ih hr
        exact ⟨q, by simp [hq], hfq, he⟩
      | ok pr =>
        obtain ⟨mp, ms⟩ := pr
        rw [hr] at h
        simp at h

theorem noAMSResult_shape (profiles : List FilamentProfile) :
    (noAMSResult profiles).mapping.length = profiles.length ∧
    (noAMSResult profiles).«matches».map (fun m => m.profile) = profiles ∧
    (noAMSResult profiles).mapping
      = (noAMSResult profiles).«matches».map (fun m => m.matchedTrayId) := by
  refine ⟨by simp [noAMSResult], ?_, ?_⟩
  · simp only [noAMSResult, List.map_map]
    have hfun : ((fun m : MatchedFilamentProfile => m.profile) ∘ fun p : FilamentProfile =>
        ({ profile := p, matchedSlot := some 1, matchedTrayId := some 0,
           matchQuality := "exact", currentColor := p.colour,
           currentType := p.type } : MatchedFilamentProfile)) = fun p => p := rfl
    rw [hfun, List.map_id']
  · simp only [noAMSResult, List.map_map]
    have hfun : ((fun m : MatchedFilamentProfile => m.matchedTrayId) ∘ fun p : FilamentProfile =>
        ({ profile := p, matchedSlot := some 1, matchedTrayId := some 0,
           matchQuality := "exact", currentColor := p.colour,
           currentType := p.type } : MatchedFilamentProfile)) = fun _ => some 0 := rfl
    rw [hfun]

/-- Claim C3: `matchProfilesToAMS` is atomic — for every profile list and
printer status it either returns a result whose `mapping` has exactly one
entry per input profile, whose `matches` carry the input profiles in input
order, and whose `mapping` is exactly the matched tray ids of those
matches; or it fails with the filament-not-found error carrying the
unmatched profile's declared type and color plus the listing of every
available tray — never a partial mapping. -/
theorem matchProfilesToAMS_atomic (profiles : List FilamentProfile)
    (currentStatus : PrinterStatus) :
    (∃ r, matchProfilesToAMS profiles currentStatus = .ok r ∧
       r.mapping.length = profiles.length ∧
       r.«matches».map (fun m => m.profile) = profiles ∧
       r.mapping = r.«matches».map (fun m => m.matchedTrayId)) ∨
    (∃ p, p ∈ profiles ∧
       matchProfilesToAMS profiles currentStatus =
         .error (FILAMENT_NOT_FOUND_MSG p.type p.colour p.index
           (formatAvailableFilaments (statusTrays currentStatus)))) := by
  cases hpa : currentStatus.print.bind (fun p => p.ams) with
  | none =>
    left
    exact ⟨noAMSResult profiles, by simp [matchProfilesToAMS, hpa],
      noAMSResult_shape profiles⟩
  | some amsData =>
    cases hams : amsData.ams with
    | none =>
      left
      exact ⟨noAMSResult profiles, by simp [matchProfilesToAMS, hpa, hams],
        noAMSResult_shape profiles⟩
    | some units =>
      by_cases hu : units.isEmpty = true
      · left
        exact ⟨noAMSResult profiles, by simp [matchProfilesToAMS, hpa, hams, hu],
          noAMSResult_shape profiles⟩
      · by_cases hempty : ((units.map (fun u => u.tray.getD [])).flatten).isEmpty = true
        · left
          exact ⟨noAMSResult profiles,
            by simp [matchProfilesToAMS, hpa, hams, hu, hempty],
            noAMSResult_shape profiles⟩
        · cases hmt : matchTrays ((units.map (fun u => u.tray.getD [])).flatten) profiles with
          | error e =>
            right
            obtain ⟨p, hp, hfe, he⟩ :=
              matchTrays_error_shape ((units.map (fun u => u.tray.getD [])).flatten)
                profiles e hmt
            refine ⟨p, hp, ?_⟩
            have hst : statusTrays currentStatus
                = (units.map (fun u => u.tray.getD [])).flatten := by
              simp [statusTrays, hpa, hams]
            rw [hst]
            simp [matchProfilesToAMS, hpa, hams, hu, hempty, hmt, he]
          | ok pr =>
            obtain ⟨mp, ms⟩ := pr
            left
            obtain ⟨i1, i2, _⟩ :=
              matchTrays_ok_shape ((units.map (fun u => u.tray.getD [])).flatten)
                profiles mp ms hmt
            refine ⟨{ mapping := mp, «matches» := ms, amsDetected := true,
                      totalSlots := ((units.map (fun u => u.tray.getD [])).flatten).length },
              by simp [matchProfilesToAMS, hpa, hams, hu, hempty, hmt], ?_, i1, i2⟩
            have : ms.length = profiles.length := by
              rw [← i1]
              simp
            simp [i2, this]

/-- Claim C5: whenever the device status reports no material bay, or a bay
with zero loaded trays (`statusTrays` empty), the matcher returns the
single-spool result: `amsDetected=false`, `totalSlots=1`, `mapping` all
zeros of length equal to the profile count, and every match entry has
`matchedTrayId=0`, `matchedSlot=1` and match quality "exact"; no profile
is ever rejected in this case. -/
theorem matchProfilesToAMS_no_ams (profiles : List FilamentProfile)
    (currentStatus : PrinterStatus) (h : statusTrays currentStatus = []) :
    matchProfilesToAMS profiles currentStatus = .ok (noAMSResult profiles) ∧
    (noAMSResult profiles).amsDetected = false ∧
    (noAMSResult profiles).totalSlots = 1 ∧
    (noAMSResult profiles).mapping = List.replicate profiles.length (some 0) ∧
    ∀ m ∈ (noAMSResult profiles).«matches»,
      m.matchedTrayId = some 0 ∧ m.matchedSlot = some 1 ∧ m.matchQuality = "exact" := by
  refine ⟨?_, rfl, rfl, ?_, ?_⟩
  · unfold statusTrays at h
    cases hpa : currentStatus.print.bind (fun p => p.ams) with
    | none => simp [matchProfilesToAMS, hpa]
    | some amsData =>
      rw [hpa] at h
      simp only [] at h
      cases hams : amsData.ams with
      | none => simp [matchProfilesToAMS, hpa, hams]
      | some units =>
        rw [hams] at h
        simp only [] at h
        by_cases hu : units.isEmpty = true
        · simp [matchProfilesToAMS, hpa, hams, hu]
        · have hempty : ((units.map (fun u => u.tray.getD [])).flatten).isEmpty = true := by
            simp only [h, List.isEmpty_nil]
          simp [matchProfilesToAMS, hpa, hams, hu, hempty]
  · simp [noAMSResult, List.map_const']
  · intro m hm
    simp only [noAMSResult, List.mem_map] at hm
    obtain ⟨p, _, rfl⟩ := hm
    exact ⟨rfl, rfl, rfl⟩

theorem matchProfilesToAMS_no_ams_witness :
    matchProfilesToAMS [witProfilePLA] witStatusNoAMS = .ok (noAMSResult [witProfilePLA]) ∧
    (noAMSResult [witProfilePLA]).amsDetected = false ∧
    (noAMSResult [witProfilePLA]).totalSlots = 1 ∧
    (noAMSResult [witProfilePLA]).mapping
      = List.replicate [witProfilePLA].length (some 0) ∧
    ∀ m ∈ (noAMSResult [witProfilePLA]).«matches»,
      m.matchedTrayId = some 0 ∧ m.matchedSlot = some 1 ∧ m.matchQuality = "exact" :=
  matchProfilesToAMS_no_ams [witProfilePLA] witStatusNoAMS rfl

/-- Claim C10: every result returned by `matchProfilesToAMS` satisfies,
for each match entry, `matchedSlot = matchedTrayId + 1` (lifted over the
`NaN` option), and in the AMS-detected case each entry's `matchedTrayId`
is the integer parsed from the matched (device-reported) tray's `id`
string, for some tray occurring in the status's reported tray list — not
the tray's position in the scan order. -/
theorem matchResult_tray_id_invariant (profiles : List FilamentProfile)
    (currentStatus : PrinterStatus) (r : FilamentMatchResult)
    (h : matchProfilesToAMS profiles currentStatus = .ok r) :
    (∀ m ∈ r.«matches», m.matchedSlot = m.matchedTrayId.map (· + 1)) ∧
    (r.amsDetected = true →
      ∀ m ∈ r.«matches», ∃ t ∈ statusTrays currentStatus,
        m.matchedTrayId = jsParseInt (jsOrStr t.id "0")) := by
  have hnoams : ∀ (heq : r = noAMSResult profiles),
      (∀ m ∈ r.«matches», m.matchedSlot = m.matchedTrayId.map (· + 1)) ∧
      (r.amsDetected = true →
        ∀ m ∈ r.«matches», ∃ t ∈ statusTrays currentStatus,
          m.matchedTrayId = jsParseInt (jsOrStr t.id "0")) := by
    intro heq
    subst heq
    constructor
    · intro m hm
      simp only [noAMSResult, List.mem_map] at hm
      obtain ⟨p, _, rfl⟩ := hm
      rfl
    · intro hdet
      simp [noAMSResult] at hdet
  cases hpa : currentStatus.print.bind (fun p => p.ams) with
  | none =>
    rw [matchProfilesToAMS, hpa] at h
    simp only [Except.ok.injEq] at h
    exact hnoams h.symm
  | some amsData =>
    rw [matchProfilesToAMS, hpa] at h
    simp only [] at h
    cases hams : amsData.ams with
    | none =>
      rw [hams] at h
      simp only [Except.ok.injEq] at h
      exact hnoams h.symm
    | some units =>
      rw [hams] at h
      simp only [] at h
      by_cases hu : units.isEmpty = true
      · rw [if_pos hu] at h
        simp only [Except.ok.injEq] at h
        exact hnoams h.symm
      · rw [if_neg hu] at h
        by_cases hempty : ((units.map (fun u => u.tray.getD [])).flatten).isEmpty = true
        · rw [if_pos hempty] at h
          simp only [Except.ok.injEq] at h
          exact hnoams h.symm
        · rw [if_neg hempty] at h
          cases hmt : matchTrays ((units.map (fun u => u.tray.getD [])).flatten) profiles with
          | error e =>
            rw [hmt] at h
            simp at h
          | ok pr =>
            obtain ⟨mp, ms⟩ := pr
            rw [hmt] at h
            simp only [Except.ok.injEq] at h
            subst h
            obtain ⟨_, _, i3⟩ :=
              matchTrays_ok_shape ((units.map (fun u => u.tray.getD [])).flatten)
                profiles mp ms hmt
            have hst : statusTrays currentStatus
                = (units.map (fun u => u.tray.getD [])).flatten := by
              simp [statusTrays, hpa, hams]
            constructor
            · intro m hm
              obtain ⟨p, hp⟩ := i3 m hm
              exact (findExactMatch_shape p _ m hp).2.1
            · intro _ m hm
              obtain ⟨p, hp⟩ := i3 m hm
              obtain ⟨_, _, _, t, ht, hid⟩ := findExactMatch_shape p _ m hp
              exact ⟨t, by rw [hst]; exact ht, hid⟩

theorem matchResult_tray_id_invariant_witness :
    (∀ m ∈ (FilamentMatchResult.mk [some 2]
        [{ profile := witProfilePLA, matchedSlot := some 3, matchedTrayId := some 2,
           matchQuality := "exact", currentColor := "#ff0000ff",
           currentType := "PLA" }] true 1).«matches»,
      m.matchedSlot = m.matchedTrayId.map (· + 1)) ∧
    ((FilamentMatchResult.mk [some 2]
        [{ profile := witProfilePLA, matchedSlot := some 3, matchedTrayId := some 2,
           matchQuality := "exact", currentColor := "#ff0000ff",
           currentType := "PLA" }] true 1).amsDetected = true →
      ∀ m ∈ (FilamentMatchResult.mk [some 2]
        [{ profile := witProfilePLA, matchedSlot := some 3, matchedTrayId := some 2,
           matchQuality := "exact", currentColor := "#ff0000ff",
           currentType := "PLA" }] true 1).«matches»,
        ∃ t ∈ statusTrays witStatusAMS,
          m.matchedTrayId = jsParseInt (jsOrStr t.id "0")) :=
  matchResult_tray_id_invariant [witProfilePLA] witStatusAMS _ rfl

theorem hex_char_facts : ∀ c ∈ hexDigitChars,
    Char.toUpper c ∈ hexDigitChars ∧ isJsWs c = false ∧
    Char.toUpper c ≠ '#' ∧ Char.toUpper (Char.toUpper c) = Char.toUpper c := by
  decide

theorem isHexDigitC_mem {c : Char} (h : isHexDigitC c = true) : c ∈ hexDigitChars := by
  simpa [isHexDigitC] using h

theorem dropWhile_eq_self_of_false (p : Char → Bool) (l : List Char)
    (h : ∀ c ∈ l, p c = false) : l.dropWhile p = l := by
  cases l with
  | nil => rfl
  | cons a t => simp [List.dropWhile_cons, h a (by simp)]

theorem jsTrimL_eq_self (l : List Char) (h : ∀ c ∈ l, isJsWs c = false) :
    jsTrimL l = l := by
  unfold jsTrimL
  rw [dropWhile_eq_self_of_false _ _ h,
    dropWhile_eq_self_of_false _ _ (fun c hc => h c (List.mem_reverse.mp hc)),
    List.reverse_reverse]

theorem map_eq_self_of_fixed (f : Char → Char) (l : List Char)
    (h : ∀ c ∈ l, f c = c) : l.map f = l := by
  induction l with
  | nil => rfl
  | cons a t ih =>
    rw [List.map_cons, h a (by simp), ih (fun c hc => h c (by simp [hc]))]

theorem normColorL_of_hexForm (s : List Char)
    (h : ∀ c ∈ stripLeadingHash s, isHexDigitC c = true) :
    normColorL s =
      (if 8 ≤ (jsToUpperL (stripLeadingHash s)).length
       then (jsToUpperL (stripLeadingHash s)).take 6
       else jsToUpperL (stripLeadingHash s)) := by
  have hhex : ∀ c ∈ stripLeadingHash s, c ∈ hexDigitChars :=
    fun c hc => isHexDigitC_mem (h c hc)
  have hkey : (stripLeadingHash (jsToUpperL (jsTrimL s))).filter (fun c => !isJsWs c)
      = jsToUpperL (stripLeadingHash s) := by
    cases s with
    | nil => rfl
    | cons a t =>
      by_cases ha : a = '#'
      · subst ha
        have hsl : stripLeadingHash ('#' :: t) = t := by simp [stripLeadingHash]
        rw [hsl] at hhex
        have htws : ∀ c ∈ '#' :: t, isJsWs c = false := by
          intro c hc
          rcases List.mem_cons.mp hc with rfl | hc
          · decide
          · exact (hex_char_facts c (hhex c hc)).2.1
        rw [jsTrimL_eq_self _ htws, hsl]
        have hup : jsToUpperL ('#' :: t) = '#' :: jsToUpperL t := by
          rw [jsToUpperL, List.map_cons]
          rfl
        rw [hup]
        have hsl2 : stripLeadingHash ('#' :: jsToUpperL t) = jsToUpperL t := by
          simp [stripLeadingHash]
        rw [hsl2]
        rw [List.filter_eq_self]
        intro c hc
        obtain ⟨d, hd, rfl⟩ := List.mem_map.mp hc
        have hf := hex_char_facts d (hhex d hd)
        simp [(hex_char_facts _ hf.1).2.1]
      · have hsl : stripLeadingHash (a :: t) = a :: t := by
          simp [stripLeadingHash, ha]
        rw [hsl] at hhex
        have htws : ∀ c ∈ a :: t, isJsWs c = false :=
          fun c hc => (hex_char_facts c (hhex c hc)).2.1
        rw [jsTrimL_eq_self _ htws, hsl]
        have hsl2 : stripLeadingHash (jsToUpperL (a :: t)) = jsToUpperL (a :: t) := by
          rw [jsToUpperL, List.map_cons]
          have hne : Char.toUpper a ≠ '#' :=
            (hex_char_facts a (hhex a (by simp))).2.2.1
          simp [stripLeadingHash, hne]
        rw [hsl2]
        rw [List.filter_eq_self]
        intro c hc
        obtain ⟨d, hd, rfl⟩ := List.mem_map.mp hc
        have hf := hex_char_facts d (hhex d hd)
        simp [(hex_char_facts _ hf.1).2.1]
  unfold normColorL
  rw [hkey]

theorem normColorL_props (s : List Char)
    (h : ∀ c ∈ stripLeadingHash s, isHexDigitC c = true) :
    (∀ c ∈ normColorL s, c ∈ hexDigitChars ∧ Char.toUpper c = c) ∧
    (normColorL s).length < 8 := by
  rw [normColorL_of_hexForm s h]
  have hup : ∀ c ∈ jsToUpperL (stripLeadingHash s),
      c ∈ hexDigitChars ∧ Char.toUpper c = c := by
    intro c hc
    obtain ⟨d, hd, rfl⟩ := List.mem_map.mp hc
    have hf := hex_char_facts d (isHexDigitC_mem (h d hd))
    exact ⟨hf.1, hf.2.2.2⟩
  by_cases hlen : 8 ≤ (jsToUpperL (stripLeadingHash s)).length
  · rw [if_pos hlen]
    refine ⟨fun c hc => hup c (List.take_subset _ _ hc), ?_⟩
    have := List.length_take 6 (jsToUpperL (stripLeadingHash s))
    omega
  · rw [if_neg hlen]
    exact ⟨hup, by omega⟩

theorem normColorL_fixed (n : List Char)
    (h : ∀ c ∈ n, c ∈ hexDigitChars ∧ Char.toUpper c = c) (hlen : n.length < 8) :
    normColorL n = n := by
  have hnotws : ∀ c ∈ n, isJsWs c = false := fun c hc => (hex_char_facts c (h c hc).1).2.1
  have htrim : jsTrimL n = n := jsTrimL_eq_self n hnotws
  have hupper : jsToUpperL n = n := map_eq_self_of_fixed _ n (fun c hc => (h c hc).2)
  have hsl : stripLeadingHash n = n := by
    cases n with
    | nil => rfl
    | cons a t =>
      have ha : a ≠ '#' := by
        have hf := hex_char_facts a (h a (by simp)).1
        rw [← (h a (by simp)).2]
        exact hf.2.2.1
      simp [stripLeadingHash, ha]
  have hfil : n.filter (fun c => !isJsWs c) = n := by
    rw [List.filter_eq_self]
    intro c hc
    simp [hnotws c hc]
  unfold normColorL
  rw [htrim, hupper, hsl, hfil, if_neg (by omega)]

/-- Claim C4: color normalization is idempotent — for every hex color
string (optional single leading `#` followed by hex digits: 6-character,
8-character-with-alpha, lowercase, and `#`-prefixed forms),
`normalizeColor (normalizeColor x) = normalizeColor x`, where
`normalizeColor` trims, uppercases, strips a leading `#`, strips all
whitespace, and truncates strings of length at least 8 to their first 6
characters. -/
theorem normalizeColor_idempotent (x : String) (h : hexColorForm x = true) :
    normalizeColor (normalizeColor x) = normalizeColor x := by
  have hhex : ∀ c ∈ stripLeadingHash x.toList, isHexDigitC c = true := by
    simpa [hexColorForm, List.all_eq_true] using h
  have hprops := normColorL_props x.toList hhex
  unfold normalizeColor
  have hround : ((normColorL x.toList).asString).toList = normColorL x.toList := rfl
  rw [hround, normColorL_fixed _ hprops.1 hprops.2]

theorem normalizeColor_idempotent_witness :
    hexColorForm "#ff0000ff" = true ∧
    normalizeColor (normalizeColor "#ff0000ff") = normalizeColor "#ff0000ff" :=
  ⟨by decide, normalizeColor_idempotent "#ff0000ff" (by decide)⟩

theorem condRetryGo_all_retryable (fn : Nat → Except String Unit) :
    ∀ (remaining i : Nat),
      (∀ k, k ≤ remaining → ∃ e, fn (i + k) = .error e ∧ isRetryableError e = true) →
      ∃ e, fn (i + remaining) = .error e ∧
        condRetryGo fn i remaining =
          (.error e, remaining + 1,
           (List.range remaining).map (fun k =>
             retryDelay RETRY_INITIAL_DELAY RETRY_BACKOFF_MULTIPLIER RETRY_MAX_DELAY
               (i + k + 1))) := by
  intro remaining
  induction remaining with
  | zero =>
    intro i h
    obtain ⟨e, he, hr⟩ := h 0 (le_refl 0)
    rw [Nat.add_zero] at he
    refine ⟨e, he, ?_⟩
    unfold condRetryGo
    rw [he]
    simp [hr]
  | succ r ih =>
    intro i h
    obtain ⟨e, he, hr⟩ := h 0 (by omega)
    rw [Nat.add_zero] at he
    obtain ⟨e2, he2, hrest⟩ := ih (i + 1) (fun k hk => by
      obtain ⟨e3, h3, h4⟩ := h (k + 1) (by omega)
      refine ⟨e3, ?_, h4⟩
      rw [← h3]
      congr 1
      omega)
    refine ⟨e2, ?_, ?_⟩
    · rw [show i + (r + 1) = i + 1 + r by omega]
      exact he2
    · unfold condRetryGo
      rw [he]
      simp only [hr, if_true, hrest]
      have hmap : (List.range (r + 1)).map (fun k =>
            retryDelay RETRY_INITIAL_DELAY RETRY_BACKOFF_MULTIPLIER RETRY_MAX_DELAY
              (i + k + 1))
          = retryDelay RETRY_INITIAL_DELAY RETRY_BACKOFF_MULTIPLIER RETRY_MAX_DELAY
              (i + 1) ::
            (List.range r).map (fun k =>
              retryDelay RETRY_INITIAL_DELAY RETRY_BACKOFF_MULTIPLIER RETRY_MAX_DELAY
                (i + 1 + k + 1)) := by
        rw [List.range_succ_eq_map, List.map_cons, List.map_map]
        refine congrArg₂ _ rfl ?_
        apply List.map_congr_left
        intro k _
        simp only [Function.comp_apply]
        congr 1
        omega
      rw [hmap]

/-- Claim C8: the conditional retry wrapper never retries non-retryable
failures — a wrapped operation failing with an error not classified as a
transient network error (such as an authentication failure) is invoked
exactly once and the error propagates immediately, with no delays slept;
when every attempt fails with a transient (retryable) error, the
operation is invoked the full `maxRetries + 1` times with the
exponentially backed-off delay sequence slept between attempts, and the
last attempt's error is surfaced. -/
theorem withConditionalRetry_classification (fn : Nat → Except String Unit)
    (maxRetries : Nat) :
    (∀ e, fn 0 = .error e → isRetryableError e = false →
       withConditionalRetry fn maxRetries = (.error e, 1, [])) ∧
    ((∀ k, k ≤ maxRetries → ∃ e, fn k = .error e ∧ isRetryableError e = true) →
       ∃ e, fn maxRetries = .error e ∧
         withConditionalRetry fn maxRetries =
           (.error e, maxRetries + 1,
            (List.range maxRetries).map (fun k =>
              retryDelay RETRY_INITIAL_DELAY RETRY_BACKOFF_MULTIPLIER RETRY_MAX_DELAY
                (k + 1)))) := by
  constructor
  · intro e he hnr
    unfold withConditionalRetry condRetryGo
    rw [he]
    simp [hnr]
  · intro h
    have hall := condRetryGo_all_retryable fn maxRetries 0
      (fun k hk => by simpa using h k hk)
    simpa using hall

theorem withConditionalRetry_classification_witness :
    withConditionalRetry witAuthErrFn 2 =
      (.error "FTP authentication failed. Please verify your access code in the credentials.",
       1, []) ∧
    (∃ e, witConnErrFn 2 = .error e ∧
       withConditionalRetry witConnErrFn 2 =
         (.error e, 2 + 1,
          (List.range 2).map (fun k =>
            retryDelay RETRY_INITIAL_DELAY RETRY_BACKOFF_MULTIPLIER RETRY_MAX_DELAY
              (k + 1)))) :=
  ⟨(withConditionalRetry_classification witAuthErrFn 2).1 _ rfl (by decide),
   (withConditionalRetry_classification witConnErrFn 2).2
     (fun k _ => ⟨"Connection timeout", rfl, by decide⟩)⟩

theorem buildProfiles_ok (d : GcodeDirectives) :
    ∀ slots : List Nat, (∀ s ∈ slots, s - 1 < d.filamentTypes.length) →
      ∃ ps, buildProfiles d slots = .ok (ps, slots.map (fun s => s - 1)) ∧
        ps.length = slots.length ∧ ∀ p ∈ ps, p.trayId = p.slotNumber - 1 := by
  intro slots
  induction slots with
  | nil =>
    intro _
    exact ⟨[], rfl, rfl, by simp⟩
  | cons s rest ih =>
    intro h
    obtain ⟨ps, hb, hl, hp⟩ := ih (fun t ht => h t (by simp [ht]))
    refine ⟨{ index := s - 1
              type := jsIndexOr d.filamentTypes (s - 1) "UNKNOWN"
              colour := jsIndexOr d.filamentColours (s - 1) "#FFFFFF"
              name := jsIndexOr d.filamentNames (s - 1) "Unknown Profile"
              slotNumber := s
              trayId := s - 1 } :: ps, ?_, by simp [hl], ?_⟩
    · unfold buildProfiles
      rw [if_neg (by have := h s (by simp); omega), hb]
      simp
    · intro p hp2
      rcases List.mem_cons.mp hp2 with rfl | hmem
      · rfl
      · exact hp p hmem

/-- Claim C6: the Extractor builds one profile per material actually
used: for every input whose scanned slot-usage directive is
`filament: 1,2` over a 5-entry per-material type list, `parseGcodeHeader`
succeeds with exactly 2 profiles, `detectedMapping = [0, 1]` (each
`trayId` equal to `slotNumber - 1`) and `totalEmbedded = 5` —
embedded-but-unused materials are dropped. -/
theorem extractor_uses_only_declared_slots (gcodeContent : String)
    (d : GcodeDirectives)
    (hscan : scanHeaderLines (gcodeLines gcodeContent) initialDirectives = .ok d)
    (hslots : d.slotsUsed = [1, 2])
    (htypes : d.filamentTypes.length = 5) :
    ∃ r, parseGcodeHeader gcodeContent = .ok r ∧
      r.profiles.length = 2 ∧ r.detectedMapping = [0, 1] ∧ r.totalEmbedded = 5 ∧
      ∀ p ∈ r.profiles, p.trayId = p.slotNumber - 1 := by
  obtain ⟨ps, hb, hl, hp⟩ := buildProfiles_ok d [1, 2] (by
    intro s hs
    rcases List.mem_cons.mp hs with rfl | hs
    · omega
    · rcases List.mem_cons.mp hs with rfl | hs
      · omega
      · simp at hs)
  refine ⟨{ profiles := ps, detectedMapping := [0, 1],
            totalEmbedded := d.filamentTypes.length }, ?_, by simpa using hl,
    rfl, by rw [htypes], hp⟩
  unfold parseGcodeHeader
  rw [hscan]
  simp only []
  rw [hslots]
  have hne : d.filamentTypes.isEmpty = false := by
    cases hft : d.filamentTypes with
    | nil => rw [hft] at htypes; simp at htypes
    | cons a t => rfl
  rw [if_neg (by simp), if_neg (by simp [hne]), hb]
  simp

theorem extractor_uses_only_declared_slots_witness :
    ∃ r, parseGcodeHeader witGcodeContent = .ok r ∧
      r.profiles.length = 2 ∧ r.detectedMapping = [0, 1] ∧ r.totalEmbedded = 5 ∧
      ∀ p ∈ r.profiles, p.trayId = p.slotNumber - 1 :=
  extractor_uses_only_declared_slots witGcodeContent witGcodeDirectives rfl rfl rfl

theorem parseSlotTokens_any_bad : ∀ toks : List String, toks.any badSlotTok = true →
    ∃ t, t ∈ toks ∧ badSlotTok t = true ∧
      parseSlotTokens toks = .error (INVALID_SLOT_MSG t) := by
  intro toks
  induction toks with
  | nil => simp
  | cons s rest ih =>
    intro h
    by_cases hb : badSlotTok s = true
    · refine ⟨s, by simp, hb, ?_⟩
      unfold parseSlotTokens
      unfold badSlotTok at hb
      cases hpi : jsParseInt s with
      | none => rfl
      | some n =>
        rw [hpi] at hb
        simp only [] at hb
        simp only []
        rw [if_pos hb]
    · have h2 : rest.any badSlotTok = true := by
        rcases (List.any_eq_true).mp h with ⟨t, ht, htb⟩
        rcases List.mem_cons.mp ht with rfl | hm
        · exact absurd htb hb
        · exact (List.any_eq_true).mpr ⟨t, hm, htb⟩
      obtain ⟨t, ht, htb, he⟩ := ih h2
      refine ⟨t, by simp [ht], htb, ?_⟩
      unfold parseSlotTokens
      unfold badSlotTok at hb
      cases hpi : jsParseInt s with
      | none => rw [hpi] at hb; simp at hb
      | some n =>
        rw [hpi] at hb
        simp only [] at hb
        simp only []
        rw [if_neg (by simpa using hb), he]

theorem buildProfiles_bad_slot (d : GcodeDirectives) :
    ∀ slots : List Nat, (∃ s ∈ slots, d.filamentTypes.length ≤ s - 1) →
      ∃ s, s ∈ slots ∧ d.filamentTypes.length ≤ s - 1 ∧
        buildProfiles d slots =
          .error (INVALID_PROFILE_INDEX_MSG (s - 1) s d.filamentTypes.length) := by
  intro slots
  induction slots with
  | nil => simp
  | cons a rest ih =>
    intro h
    by_cases ha : d.filamentTypes.length ≤ a - 1
    · refine ⟨a, by simp, ha, ?_⟩
      unfold buildProfiles
      rw [if_pos ha]
    · obtain ⟨s, hs, hsl⟩ := h
      have hm : s ∈ rest := by
        rcases List.mem_cons.mp hs with rfl | hm
        · exact absurd hsl ha
        · exact hm
      obtain ⟨t, ht, htl, he⟩ := ih ⟨s, hm, hsl⟩
      refine ⟨t, by simp [ht], htl, ?_⟩
      unfold buildProfiles
      rw [if_neg ha, he]

/-- Claim C7 (amended): a slot-usage value whose JavaScript `parseInt`
interpretation is `NaN` or an integer outside `[1, 4]` fails the
Extractor with the invalid-slot-number error naming a rejected value
(values such as "2.5", whose leading-integer parse lies in `[1, 4]`, are
accepted as that integer rather than rejected); and an input declaring a
used slot whose index `slotNumber - 1` lies beyond the embedded
per-material type list fails with the profile-index-out-of-range error;
in both cases no profile list is returned. -/
theorem parser_error_cases :
    (∀ value : String, (slotTokens value).any badSlotTok = true →
       ∃ t, t ∈ slotTokens value ∧ badSlotTok t = true ∧
         parseSlotUsage value = .error (INVALID_SLOT_MSG t)) ∧
    (∀ (gcodeContent : String) (d : GcodeDirectives),
       scanHeaderLines (gcodeLines gcodeContent) initialDirectives = .ok d →
       d.filamentTypes ≠ [] →
       (∃ s ∈ d.slotsUsed, d.filamentTypes.length ≤ s - 1) →
       ∃ s, s ∈ d.slotsUsed ∧ d.filamentTypes.length ≤ s - 1 ∧
         parseGcodeHeader gcodeContent =
           .error (INVALID_PROFILE_INDEX_MSG (s - 1) s d.filamentTypes.length)) := by
  constructor
  · intro value h
    obtain ⟨t, ht, htb, he⟩ := parseSlotTokens_any_bad (slotTokens value) h
    refine ⟨t, ht, htb, ?_⟩
    unfold parseSlotUsage
    rw [he]
  · intro gcodeContent d hscan htne hbad
    obtain ⟨s, hs, hsl, he⟩ := buildProfiles_bad_slot d d.slotsUsed hbad
    refine ⟨s, hs, hsl, ?_⟩
    unfold parseGcodeHeader
    rw [hscan]
    simp only []
    have hsne : d.slotsUsed.isEmpty = false := by
      cases hsu : d.slotsUsed with
      | nil => rw [hsu] at hs; simp at hs
      | cons a t => rfl
    have hne : d.filamentTypes.isEmpty = false := by
      cases hft : d.filamentTypes with
      | nil => exact absurd hft htne
      | cons a t => rfl
    rw [if_neg (by simp [hsne]), if_neg (by simp [hne]), he]

/-- Claim C7 counterexample: the slot-usage value "2.5" is not an integer
in `[1, 4]`, yet the Extractor does not fail with the invalid-slot-number
error — JavaScript `parseInt` reads the leading integer 2 — and a profile
list is returned. -/
theorem parser_error_cases_cex :
    parseSlotUsage "2.5" = .ok [2] ∧
    parseGcodeHeader cexGcodeContent =
      .ok { profiles := [{ index := 1, type := "PETG", colour := "#FFFFFF",
                           name := "Unknown Profile", slotNumber := 2, trayId := 1 }],
            detectedMapping := [1], totalEmbedded := 5 } :=
  ⟨rfl, rfl⟩

theorem parser_error_cases_witness :
    (∃ t, t ∈ slotTokens "9" ∧ badSlotTok t = true ∧
       parseSlotUsage "9" = .error (INVALID_SLOT_MSG t)) ∧
    (∃ s, s ∈ witBadIndexDirectives.slotsUsed ∧
       witBadIndexDirectives.filamentTypes.length ≤ s - 1 ∧
       parseGcodeHeader witGcodeBadIndex =
         .error (INVALID_PROFILE_INDEX_MSG (s - 1) s
           witBadIndexDirectives.filamentTypes.length)) :=
  ⟨parser_error_cases.1 "9" (by decide),
   parser_error_cases.2 witGcodeBadIndex witBadIndexDirectives rfl (by decide)
     ⟨4, by decide, by decide⟩⟩
